import Mathlib

/-
  Verification of the MediLens analysis pipeline and its client-side
  admission / queueing / cooldown controller.

  The admission controller is embedded from `src/hooks/use-scanner.ts`:
  the React hook state (`state`, `analysisResult`, `error`, `imageQueue`,
  `cooldownTime`, `isProcessingRef`, the persisted cooldown end timestamp)
  becomes an explicit record, and each handler / effect of the hook becomes
  a transition on that record.  The asynchronous `forensicAnalysisFlow`
  call inside `processQueue` is split into a dispatch step (the code up to
  the `await`) and a completion step (the `try`/`catch`/`finally` after it);
  the number of pending awaited calls is tracked in `inFlight`.

  The pipeline orchestrator is embedded from
  `src/ai/flows/forensic-analysis-flow.ts` (`multiAgentAnalysisFlow`): the
  external agent calls become an environment of `Except` outcomes, and the
  orchestration is a function of that environment which also records the
  trace of invoked stages.
-/

namespace MediLens

/-- `COOLDOWN_SECONDS` from use-scanner.ts. -/
def COOLDOWN_SECONDS : Nat := 15

/-- Cooldown duration in milliseconds: `COOLDOWN_SECONDS * 1000`. -/
def cooldownMs : Nat := COOLDOWN_SECONDS * 1000

/-- The `InternalState` union of use-scanner.ts. -/
inductive SState
  | idle
  | scanning
  | analyzing
  | results
  | cooldown
deriving DecidableEq, Repr

/-- Outcome of one awaited `forensicAnalysisFlow` call, as observed by
`processQueue`: either a result value or a thrown error message. -/
inductive RunOutcome
  | ok (r : Nat)
  | err (m : String)
deriving DecidableEq, Repr

/-- The hook state of use-scanner.ts.  Images are abstracted to `Nat`.
`storage` is the persisted `medilens_cooldown_end` key (`none` = removed;
reading a missing key yields 0, mirroring `|| '0'`).  `inFlight` counts
`forensicAnalysisFlow` calls that have been started but whose
`try`/`finally` has not yet run. -/
structure Scanner where
  state : SState
  analysisResult : Option Nat
  error : Option String
  imageQueue : List Nat
  cooldownTime : Nat
  isProcessing : Bool
  storage : Option Nat
  inFlight : Nat
deriving DecidableEq, Repr

/-- Initial hook state. -/
def initScanner : Scanner :=
  { state := .idle, analysisResult := none, error := none, imageQueue := [],
    cooldownTime := 0, isProcessing := false, storage := none, inFlight := 0 }

/-- `processQueue` (use-scanner.ts lines 34-54), up to and including the
dispatch of the head image: guard on `isProcessingRef.current` and an empty
queue, re-check the persisted cooldown end (entering `cooldown` if still
active), and otherwise take the head of the queue, clear result and error,
enter `analyzing`, acquire the lock, and start one flow call. -/
def processQueue (now : Nat) (s : Scanner) : Scanner :=
  if s.isProcessing = true ∨ s.imageQueue = [] then s
  else if now < s.storage.getD 0 then { s with state := .cooldown }
  else
    { s with imageQueue := s.imageQueue.tail,
             analysisResult := none, error := none,
             state := .analyzing, isProcessing := true,
             inFlight := s.inFlight + 1 }

/-- The `try`/`catch`/`finally` tail of `processQueue` (lines 65-98), run
when an awaited flow call settles: on success the result is stored, on a
thrown error the message is stored, and in both cases the `finally` block
persists a new cooldown end (`Date.now() + COOLDOWN_SECONDS * 1000`) and
sets state `results`.  `isProcessingRef` is not touched here. -/
def completeRun (now : Nat) (res : RunOutcome) (s : Scanner) : Scanner :=
  if s.inFlight = 0 then s
  else
    let s1 : Scanner :=
      match res with
      | .ok r => { s with analysisResult := some r }
      | .err m => { s with error := some m }
    { s1 with storage := some (now + cooldownMs), state := .results,
              inFlight := s.inFlight - 1 }

/-- `startScan` (lines 140-146). -/
def startScan (s : Scanner) : Scanner :=
  if s.isProcessing = true ∨ s.state = .cooldown then s
  else { s with state := .scanning, analysisResult := none, error := none,
                imageQueue := [] }

/-- `handleImageCapture` (lines 148-152). -/
def handleImageCapture (img : Nat) (s : Scanner) : Scanner :=
  if s.state = .cooldown ∨ s.isProcessing = true then s
  else { s with imageQueue := [img], state := .idle }

/-- `handleMultipleImages` (lines 154-158). -/
def handleMultipleImages (imgs : List Nat) (s : Scanner) : Scanner :=
  if s.state = .cooldown ∨ s.isProcessing = true ∨ imgs = [] then s
  else { s with imageQueue := imgs, state := .idle }

/-- `restart` (lines 160-169): unconditional reset of state, result,
error, queue, lock flag, persisted cooldown key and countdown.  The
in-flight flow call (if any) is not cancelled. -/
def restartScanner (s : Scanner) : Scanner :=
  { s with state := .idle, analysisResult := none, error := none,
           imageQueue := [], isProcessing := false, storage := none,
           cooldownTime := 0 }

/-- One firing of the cooldown interval callback (lines 102-121):
`remaining = ceil((end - now) / 1000)` (written with Nat ceiling
division and truncated subtraction); while positive it is displayed,
otherwise the persisted key is removed and state becomes `idle`. -/
def cooldownTick (now : Nat) (s : Scanner) : Scanner :=
  if s.state = .cooldown then
    if 0 < (s.storage.getD 0 - now + 999) / 1000 then
      { s with cooldownTime := (s.storage.getD 0 - now + 999) / 1000 }
    else { s with cooldownTime := 0, storage := none, state := .idle }
  else s

/-- The dispatch effect (lines 123-127): when state is `idle` and the
queue is non-empty, `processQueue` runs. -/
def idleDispatch (now : Nat) (s : Scanner) : Scanner :=
  if s.state = .idle ∧ s.imageQueue ≠ [] then processQueue now s else s

/-- The results-dwell timer (lines 129-137): after the dwell, the lock is
released and state becomes `cooldown`. -/
def resultsTimer (s : Scanner) : Scanner :=
  if s.state = .results then { s with isProcessing := false, state := .cooldown }
  else s

/-- Events of the controller: the caller-invoked handlers, the React
effects, and the settling of an awaited flow call. -/
inductive Action
  | startScan
  | capture (img : Nat)
  | multiple (imgs : List Nat)
  | dispatch (now : Nat)
  | complete (now : Nat) (res : RunOutcome)
  | resultsTimer
  | tick (now : Nat)
  | restart
deriving DecidableEq, Repr

/-- Apply one event. -/
def step (s : Scanner) : Action → Scanner
  | .startScan => startScan s
  | .capture img => handleImageCapture img s
  | .multiple imgs => handleMultipleImages imgs s
  | .dispatch now => idleDispatch now s
  | .complete now res => completeRun now res s
  | .resultsTimer => resultsTimer s
  | .tick now => cooldownTick now s
  | .restart => restartScanner s

/-- Run an event sequence from the initial hook state. -/
def run (as : List Action) : Scanner :=
  as.foldl step initScanner

example : (run [.capture 1, .dispatch 0]).state = .analyzing := by decide

example : (run [.capture 1, .dispatch 0]).inFlight = 1 := by decide

example :
    (run [.capture 1, .dispatch 0, .complete 100 (.ok 7)]).storage
      = some 15100 := by decide

/- ===== Pipeline orchestrator (multiAgentAnalysisFlow) ===== -/

/-- `OCRResultSchema` output of Agent A. -/
structure OCRMeta where
  drugName : String
  dosage : String
  imprint : String
  manufacturer : String
deriving DecidableEq, Repr

/-- One mapped Exa search result returned by Agent B
(`title` / `url` / `content`). -/
structure ResearchDoc where
  title : String
  url : String
  content : String
deriving DecidableEq, Repr

/-- `VisualForensicSchema` output of Agent C. -/
structure VisualFindings where
  qualityScore : Int
  redFlags : List String
  colorDesc : String
  shapeDesc : String
deriving DecidableEq, Repr

/-- The three verdict labels of `UnifiedAnalysisResultSchema`. -/
inductive Verdict
  | authentic
  | inconclusive
  | counterfeitRisk
deriving DecidableEq, Repr

/-- The synthesis report produced by the Groq call, after `JSON.parse` and
schema validation (only the fields the claims concern). -/
structure SynthReport where
  score : Int
  verdict : Verdict
deriving DecidableEq, Repr

/-- The value returned by `multiAgentAnalysisFlow` on success: the parsed
synthesis report plus the fields patched in afterwards (`timestamp`,
`scanId`, `imprint`). -/
structure UnifiedResult where
  report : SynthReport
  timestamp : Nat
  scanId : Nat
  imprint : String
deriving DecidableEq, Repr

/-- Environment of external-call outcomes for one flow run: Agent A
(vision OCR), Agent B (Exa retrieval + interpretation), Agent C (visual
forensics) and the Groq synthesis call (its outcome folds together the
missing-content check, `JSON.parse` and the schema validation). -/
structure FlowEnv where
  agentA : Except String OCRMeta
  agentB : Except String (List ResearchDoc)
  agentC : Except String VisualFindings
  groq : Except String SynthReport
deriving Repr

/-- Whether an `Except` holds a success value. -/
def isOkE {α : Type} : Except String α → Bool
  | .ok _ => true
  | .error _ => false

/-- The pipeline stages, used to record which agents a run invoked. -/
inductive Stage
  | extract
  | research
  | inspect
  | synthesize
deriving DecidableEq, Repr

/-- `multiAgentAnalysisFlow` (forensic-analysis-flow.ts): Agent A is
awaited first; on its success Agents B and C are both started
(`Promise.all`) and jointly awaited; on their joint success the Groq
synthesis runs and the parsed report is returned with `timestamp`,
`scanId` and `imprint` patched in (`drugMetadata.imprint || 'NONE'`).
Every stage failure propagates as a thrown error (`Except.error`); when
both parallel stages fail, `Promise.all` surfaces one of the two
rejections (modelled here as Agent B's).  The second component is the
trace of invoked stages. -/
def multiAgentAnalysisFlow (now : Nat) (env : FlowEnv) :
    Except String UnifiedResult × List Stage :=
  match env.agentA with
  | .error e => (.error e, [Stage.extract])
  | .ok md =>
    match env.agentB, env.agentC with
    | .error e, _ => (.error e, [Stage.extract, .research, .inspect])
    | .ok _, .error e => (.error e, [Stage.extract, .research, .inspect])
    | .ok _, .ok _ =>
      match env.groq with
      | .error e => (.error e, [Stage.extract, .research, .inspect, .synthesize])
      | .ok rep =>
        (.ok { report := rep, timestamp := now, scanId := now,
               imprint := if md.imprint = "" then "NONE" else md.imprint },
         [Stage.extract, .research, .inspect, .synthesize])

/-- The verdict rule stated in the synthesis prompt of
`multiAgentAnalysisFlow`: assign a verdict Authentic (>85),
Inconclusive (65-85), or Counterfeit Risk (<65).  The rule is
instructions to the synthesis model, so it is embedded from the prompt
text; reading the interval notation literally, scores strictly above 85
are Authentic, scores from 65 to 85 inclusive are Inconclusive, and
scores strictly below 65 are Counterfeit Risk. -/
def verdictOfScore (s : Int) : Verdict :=
  if 85 < s then .authentic
  else if 65 ≤ s then .inconclusive
  else .counterfeitRisk

example : verdictOfScore 86 = .authentic := by decide
example : verdictOfScore 85 = .inconclusive := by decide
example : verdictOfScore 65 = .inconclusive := by decide
example : verdictOfScore 64 = .counterfeitRisk := by decide

/- ===== Comparator & Scorer (modelled from the spec) ===== -/

/-- Per-factor comparison status. -/
inductive FactorStatus
  | matched
  | conflict
  | omission
deriving DecidableEq, Repr, Fintype

/-- The five scored factors. -/
inductive Factor
  | imprint
  | color
  | genericIdentity
  | shape
  | sourceReliability
deriving DecidableEq, Repr, Fintype

/-- Modelled from the spec: the fixed factor weights of the Comparator &
Scorer (spec 4.5 step 2).  No weighted scorer exists in the source; the
synthesis prompt delegates the 0-100 score to the external model, so the
weights are taken from the spec's words. -/
def weight : Factor → ℕ
  | .imprint => 40
  | .color => 20
  | .genericIdentity => 15
  | .shape => 10
  | .sourceReliability => 15

/-- Modelled from the spec: per-factor contribution (spec 4.5 step 3):
full weight on match, half weight on omission, zero on conflict. -/
def contribution (w : ℕ) : FactorStatus → ℚ
  | .matched => w
  | .omission => w / 2
  | .conflict => 0

/-- Modelled from the spec: the total of the five contributions for one
assignment of factor statuses. -/
def totalContribution (a b c d e : FactorStatus) : ℚ :=
  contribution (weight .imprint) a + contribution (weight .color) b +
    contribution (weight .genericIdentity) c + contribution (weight .shape) d +
    contribution (weight .sourceReliability) e

/-- Modelled from the spec: `score = round(Σ contributions)`, clamped to
[0, 100] (spec 4.5 step 4). -/
def scoreOf (a b c d e : FactorStatus) : ℤ :=
  max 0 (min 100 (round (totalContribution a b c d e)))

example : scoreOf .omission .omission .omission .omission .conflict = 43 := by
  norm_num [scoreOf, totalContribution, contribution, weight, round_eq]
example : scoreOf .matched .matched .matched .matched .matched = 100 := by
  norm_num [scoreOf, totalContribution, contribution, weight, round_eq]
example : scoreOf .conflict .matched .matched .matched .matched = 60 := by
  norm_num [scoreOf, totalContribution, contribution, weight, round_eq]

/- ===== Source Reliability Classifier ===== -/

/-- One raw Exa search hit (the fields `runAgentB` reads). -/
structure ExaItem where
  url : String
  title : String
deriving DecidableEq, Repr

/-- A reference as produced by `runAgentB` (`uri` / `title` / `trustTier`). -/
structure RawSource where
  uri : String
  title : String
  tier : Nat
deriving DecidableEq, Repr

/-- `rawSources` of `runAgentB` (forensic-analysis-flow.ts):
`exaResults.results.map(r => ({ uri: r.url, title: r.title, tier: 1 }))` —
every retrieved reference is given trust tier 1. -/
def rawSourcesOf (results : List ExaItem) : List RawSource :=
  results.map fun r => { uri := r.url, title := r.title, tier := 1 }

/-- The `includeDomains` allow-list passed to the Exa retrieval call in
`runAgentB`. -/
def includeDomains : List String :=
  ["drugs.com", "fda.gov", "who.int", "medlineplus.gov"]

/-- Modelled from the spec: the tier-1 allow-list of government and major
clinical-registry domains (spec 4.4); no such list exists in the source. -/
def specTier1Domains : List String :=
  ["fda.gov", "who.int", "medlineplus.gov", "dailymed.nlm.nih.gov"]

/-- Modelled from the spec: domain-tier assignment by allow-list match on
the reference's host — tier 1 for government/clinical-registry domains,
tier 2 otherwise (spec 4.4). -/
def specClassifyTier (host : String) : Nat :=
  if host ∈ specTier1Domains then 1 else 2

/-- Modelled from the spec: the source factor's status — match when some
tier-1 reference is present, omission when only non-tier-1 references are
present, conflict when the reference list is empty (spec 4.4). -/
def specSourceFactor (refs : List RawSource) : FactorStatus :=
  if refs.any (fun r => r.tier = 1) then .matched
  else if refs ≠ [] then .omission
  else .conflict

example : specClassifyTier "drugs.com" = 2 := by decide
example :
    rawSourcesOf [{ url := "drugs.com", title := "Drugs.com" }]
      = [{ uri := "drugs.com", title := "Drugs.com", tier := 1 }] := by decide

/- ===== Controller invariant (restart-free executions) ===== -/

/-- Lock discipline of the hook, for executions that never call `restart`:
a released lock means no flow call is pending, pending flow calls exist
only while `analyzing`, and while `analyzing` the lock is held and exactly
one call is pending. -/
def InvScan (s : Scanner) : Prop :=
  (s.isProcessing = false → s.inFlight = 0) ∧
  (s.state ≠ .analyzing → s.inFlight = 0) ∧
  (s.state = .analyzing → s.isProcessing = true ∧ s.inFlight = 1)

theorem invScan_init : InvScan initScanner := by
  refine ⟨fun _ => rfl, fun _ => rfl, fun h => ?_⟩
  exact absurd h (by decide)

theorem invScan_step (s : Scanner) (a : Action) (ha : a ≠ Action.restart)
    (h : InvScan s) : InvScan (step s a) := by
  obtain ⟨h1, h2, h3⟩ := h
  cases a with
  | startScan =>
      show InvScan (startScan s)
      unfold startScan
      split_ifs with hc
      · exact ⟨h1, h2, h3⟩
      · push_neg at hc
        have h0 : s.inFlight = 0 := h1 (by simpa using hc.1)
        exact ⟨fun _ => h0, fun _ => h0, fun hx => absurd hx (by simp)⟩
  | capture img =>
      show InvScan (handleImageCapture img s)
      unfold handleImageCapture
      split_ifs with hc
      · exact ⟨h1, h2, h3⟩
      · push_neg at hc
        have h0 : s.inFlight = 0 := h1 (by simpa using hc.2)
        exact ⟨fun _ => h0, fun _ => h0, fun hx => absurd hx (by simp)⟩
  | multiple imgs =>
      show InvScan (handleMultipleImages imgs s)
      unfold handleMultipleImages
      split_ifs with hc
      · exact ⟨h1, h2, h3⟩
      · push_neg at hc
        have h0 : s.inFlight = 0 := h1 (by simpa using hc.2.1)
        exact ⟨fun _ => h0, fun _ => h0, fun hx => absurd hx (by simp)⟩
  | dispatch now =>
      show InvScan (idleDispatch now s)
      unfold idleDispatch processQueue
      split_ifs with hg hq hcool
      · exact ⟨h1, h2, h3⟩
      · have h0 : s.inFlight = 0 := h2 (by rw [hg.1]; simp)
        exact ⟨fun _ => h0, fun _ => h0, fun hx => absurd hx (by simp)⟩
      · have h0 : s.inFlight = 0 := h2 (by rw [hg.1]; simp)
        exact ⟨fun hx => absurd hx (by simp), fun hx => absurd rfl hx,
          fun _ => ⟨rfl, by simp [h0]⟩⟩
      · exact ⟨h1, h2, h3⟩
  | complete now res =>
      show InvScan (completeRun now res s)
      unfold completeRun
      split_ifs with hz
      · exact ⟨h1, h2, h3⟩
      · have hst : s.state = .analyzing := by
          by_contra hns
          exact hz (h2 hns)
        obtain ⟨hp, hf1⟩ := h3 hst
        have h0 : s.inFlight - 1 = 0 := by omega
        cases res with
        | ok r =>
            exact ⟨fun _ => h0, fun _ => h0, fun hx => absurd hx (by simp)⟩
        | err m =>
            exact ⟨fun _ => h0, fun _ => h0, fun hx => absurd hx (by simp)⟩
  | resultsTimer =>
      show InvScan (resultsTimer s)
      unfold resultsTimer
      split_ifs with hc
      · have h0 : s.inFlight = 0 := h2 (by rw [hc]; simp)
        exact ⟨fun _ => h0, fun _ => h0, fun hx => absurd hx (by simp)⟩
      · exact ⟨h1, h2, h3⟩
  | tick now =>
      show InvScan (cooldownTick now s)
      unfold cooldownTick
      split_ifs with hc hr
      · have h0 : s.inFlight = 0 := h2 (by rw [hc]; simp)
        refine ⟨fun _ => h0, fun _ => h0, fun hx => ?_⟩
        have hx2 : s.state = .analyzing := hx
        rw [hc] at hx2
        exact absurd hx2 (by simp)
      · have h0 : s.inFlight = 0 := h2 (by rw [hc]; simp)
        exact ⟨fun _ => h0, fun _ => h0, fun hx => absurd hx (by simp)⟩
      · exact ⟨h1, h2, h3⟩
  | restart => exact absurd rfl ha

theorem invScan_foldl (s : Scanner) (as : List Action)
    (h : ∀ a ∈ as, a ≠ Action.restart) (hs : InvScan s) :
    InvScan (as.foldl step s) := by
  induction as generalizing s with
  | nil => exact hs
  | cons a tl ih =>
      exact ih _ (fun b hb => h b (List.mem_cons_of_mem _ hb))
        (invScan_step s a (h a (List.mem_cons_self _ _)) hs)

theorem invScan_run (as : List Action)
    (h : ∀ a ∈ as, a ≠ Action.restart) : InvScan (run as) :=
  invScan_foldl initScanner as h invScan_init

/- ===== Claim theorems ===== -/

/-- C1 (counterexample): a submit issued while the controller state is
`analyzing` is not enqueued: after `capture 1` and its dispatch the state
is `analyzing` with an empty queue, and `capture 2` leaves the state
unchanged — the queue length stays 0 instead of growing by 1, so the
submission is dropped, not queued. -/
theorem submit_while_analyzing_dropped :
    (run [Action.capture 1, Action.dispatch 0]).state = SState.analyzing ∧
    (run [Action.capture 1, Action.dispatch 0]).imageQueue = [] ∧
    step (run [Action.capture 1, Action.dispatch 0]) (Action.capture 2)
      = run [Action.capture 1, Action.dispatch 0] := by decide

/-- C1 (amended): in every restart-free execution, while the controller
state is `analyzing` exactly one analysis run is in flight, and a submit
(single or multiple) or `startScan` issued in that state is rejected as a
complete no-op — neither dispatched nor enqueued — so no second run
starts before the current one completes. -/
theorem single_flight_submit_rejected
    (as : List Action) (i : Nat) (l : List Nat)
    (hres : ∀ a ∈ as, a ≠ Action.restart)
    (hana : (run as).state = SState.analyzing) :
    (run as).inFlight = 1 ∧
    step (run as) (Action.capture i) = run as ∧
    step (run as) (Action.multiple l) = run as ∧
    step (run as) Action.startScan = run as := by
  obtain ⟨h1, h2, h3⟩ := invScan_run as hres
  obtain ⟨hp, hf⟩ := h3 hana
  refine ⟨hf, ?_, ?_, ?_⟩
  · show handleImageCapture i (run as) = run as
    unfold handleImageCapture
    rw [if_pos (Or.inr hp)]
  · show handleMultipleImages l (run as) = run as
    unfold handleMultipleImages
    rw [if_pos (Or.inr (Or.inl hp))]
  · show startScan (run as) = run as
    unfold startScan
    rw [if_pos (Or.inl hp)]

theorem single_flight_submit_rejected_witness :
    (∀ a ∈ ([Action.capture 1, Action.dispatch 0] : List Action),
        a ≠ Action.restart) ∧
    (run [Action.capture 1, Action.dispatch 0]).state = SState.analyzing ∧
    ((run [Action.capture 1, Action.dispatch 0]).inFlight = 1 ∧
      step (run [Action.capture 1, Action.dispatch 0]) (Action.capture 2)
        = run [Action.capture 1, Action.dispatch 0] ∧
      step (run [Action.capture 1, Action.dispatch 0]) (Action.multiple [3, 4])
        = run [Action.capture 1, Action.dispatch 0] ∧
      step (run [Action.capture 1, Action.dispatch 0]) Action.startScan
        = run [Action.capture 1, Action.dispatch 0]) :=
  ⟨by decide, by decide,
    single_flight_submit_rejected [Action.capture 1, Action.dispatch 0] 2 [3, 4]
      (by decide) (by decide)⟩

/-- C2 (counterexample): the synthesis prompt assigns Inconclusive to the
range 65-85 and Counterfeit Risk only to scores strictly below 65, so a
score of exactly 65 is Inconclusive, not CounterfeitRisk as the claim
states. -/
theorem verdict_at_65_not_counterfeit :
    verdictOfScore 65 = Verdict.inconclusive ∧
    verdictOfScore 65 ≠ Verdict.counterfeitRisk := by decide

/-- C2 (amended): the verdict rule of the synthesis prompt has these exact
boundaries: score > 85 is Authentic, 65 ≤ score ≤ 85 is Inconclusive, and
score < 65 is CounterfeitRisk; in particular 86 is Authentic, 85 and 66
are Inconclusive, and the boundary 65 is Inconclusive (64 is the largest
CounterfeitRisk score is not — the CounterfeitRisk region starts at 64
going down). -/
theorem verdict_thresholds (s : Int) :
    (verdictOfScore s = Verdict.authentic ↔ 85 < s) ∧
    (verdictOfScore s = Verdict.inconclusive ↔ 65 ≤ s ∧ s ≤ 85) ∧
    (verdictOfScore s = Verdict.counterfeitRisk ↔ s < 65) := by
  unfold verdictOfScore
  split_ifs with ha hi
  all_goals refine ⟨?_, ?_, ?_⟩ <;> simp_all <;> omega

/-- C3: the five factor weights are imprint 40, color 20, genericIdentity
15, shape 10, sourceReliability 15, summing to 100; each factor
contributes its full weight on match, half its weight on omission and
zero on conflict; and for every combination of statuses the rounded,
clamped score is an integer in [0, 100] (integrality is by construction:
`scoreOf` is ℤ-valued). -/
theorem weight_conservation_and_score_bounds :
    (weight .imprint = 40 ∧ weight .color = 20 ∧ weight .genericIdentity = 15 ∧
      weight .shape = 10 ∧ weight .sourceReliability = 15) ∧
    (weight .imprint + weight .color + weight .genericIdentity + weight .shape +
      weight .sourceReliability = 100) ∧
    (∀ w : ℕ, contribution w .matched = (w : ℚ) ∧
      contribution w .omission = (w : ℚ) / 2 ∧ contribution w .conflict = 0) ∧
    (∀ a b c d e : FactorStatus,
      0 ≤ scoreOf a b c d e ∧ scoreOf a b c d e ≤ 100) := by
  refine ⟨by decide, by decide, fun w => ⟨rfl, rfl, rfl⟩, fun a b c d e => ?_⟩
  unfold scoreOf
  exact ⟨le_max_left _ _, max_le (by norm_num) (min_le_left _ _)⟩

/-- C4 (counterexample): the code gives every retrieved reference trust
tier 1 unconditionally, so tier is not an allow-list function of the host:
for the host drugs.com — a general-web domain, tier 2 under the spec's
government/clinical-registry allow-list — the produced reference still
carries tier 1. -/
theorem tier_not_host_dependent :
    specClassifyTier "drugs.com" = 2 ∧
    rawSourcesOf [{ url := "drugs.com", title := "Drugs.com" }]
      = [{ uri := "drugs.com", title := "Drugs.com", tier := 1 }] ∧
    ¬ (∀ r ∈ rawSourcesOf [{ url := "drugs.com", title := "Drugs.com" }],
        r.tier = specClassifyTier r.uri) := by decide

/-- C4 (amended): `runAgentB` assigns the constant trust tier 1 to every
retrieved reference, regardless of its host; host filtering happens only
through the retrieval call's `includeDomains` allow-list, and no
tier-based source factor is computed in the code. -/
theorem raw_sources_tier_constant (results : List ExaItem) (r : RawSource)
    (hr : r ∈ rawSourcesOf results) : r.tier = 1 := by
  unfold rawSourcesOf at hr
  obtain ⟨x, hx, rfl⟩ := List.mem_map.mp hr
  rfl

theorem raw_sources_tier_constant_witness :
    ({ uri := "drugs.com", title := "Drugs.com", tier := 1 } : RawSource)
        ∈ rawSourcesOf [{ url := "drugs.com", title := "Drugs.com" }] ∧
    ({ uri := "drugs.com", title := "Drugs.com", tier := 1 } : RawSource).tier
        = 1 :=
  ⟨by decide,
    raw_sources_tier_constant [{ url := "drugs.com", title := "Drugs.com" }]
      { uri := "drugs.com", title := "Drugs.com", tier := 1 } (by decide)⟩

/-- Environment in which the extraction agent fails and every other stage
would succeed. -/
def envExtractFail : FlowEnv :=
  { agentA := .error "Agent A failed to extract text.",
    agentB := .ok [],
    agentC := .ok { qualityScore := 50, redFlags := [],
                    colorDesc := "white", shapeDesc := "round" },
    groq := .ok { score := 90, verdict := .authentic } }

/-- C5 (counterexample): on an extraction failure the orchestration entry
point does not return an AnalysisResult value with a failure field — it
propagates the stage's exception (`Except.error`). -/
theorem flow_raises_on_extraction_failure :
    (multiAgentAnalysisFlow 0 envExtractFail).1
      = Except.error "Agent A failed to extract text." ∧
    isOkE (multiAgentAnalysisFlow 0 envExtractFail).1 = false :=
  ⟨rfl, rfl⟩

/-- C5 (amended): `multiAgentAnalysisFlow` returns a success value exactly
when every stage (extraction, research, inspection, synthesis) succeeds;
any stage failure propagates as a thrown exception past the orchestrator's
boundary, to be caught by the admission controller's `processQueue`
catch block. -/
theorem flow_success_iff_all_stages (now : Nat) (env : FlowEnv) :
    isOkE (multiAgentAnalysisFlow now env).1
      = (isOkE env.agentA && isOkE env.agentB && isOkE env.agentC &&
          isOkE env.groq) := by
  obtain ⟨a, b, c, g⟩ := env
  cases a <;> cases b <;> cases c <;> cases g <;> rfl

/-- C6: every run completion — successful or failed — moves the
controller to `results` and persists a new cooldown end equal to the
completion time plus the configured duration; the dispatch step that
starts a run leaves the persisted cooldown untouched, so the window is
armed at completion, not at run start. -/
theorem completion_transitions_results_and_arms_cooldown
    (s : Scanner) (now now2 r : Nat) (m : String)
    (h : s.inFlight ≠ 0) :
    (step s (Action.complete now (.ok r))).state = SState.results ∧
    (step s (Action.complete now (.ok r))).storage = some (now + cooldownMs) ∧
    (step s (Action.complete now (.ok r))).analysisResult = some r ∧
    (step s (Action.complete now (.err m))).state = SState.results ∧
    (step s (Action.complete now (.err m))).storage = some (now + cooldownMs) ∧
    (step s (Action.complete now (.err m))).error = some m ∧
    (step s (Action.dispatch now2)).storage = s.storage := by
  refine ⟨?_, ?_, ?_, ?_, ?_, ?_, ?_⟩
  · show (completeRun now (.ok r) s).state = SState.results
    unfold completeRun; rw [if_neg h]
  · show (completeRun now (.ok r) s).storage = some (now + cooldownMs)
    unfold completeRun; rw [if_neg h]
  · show (completeRun now (.ok r) s).analysisResult = some r
    unfold completeRun; rw [if_neg h]
  · show (completeRun now (.err m) s).state = SState.results
    unfold completeRun; rw [if_neg h]
  · show (completeRun now (.err m) s).storage = some (now + cooldownMs)
    unfold completeRun; rw [if_neg h]
  · show (completeRun now (.err m) s).error = some m
    unfold completeRun; rw [if_neg h]
  · show (idleDispatch now2 s).storage = s.storage
    unfold idleDispatch processQueue
    split_ifs <;> rfl

theorem completion_transitions_results_witness :
    (step (run [Action.capture 1, Action.dispatch 0])
        (Action.complete 100 (.err "fail"))).state = SState.results ∧
    (step (run [Action.capture 1, Action.dispatch 0])
        (Action.complete 100 (.err "fail"))).storage = some (100 + cooldownMs) ∧
    (step (run [Action.capture 1, Action.dispatch 0])
        (Action.complete 100 (.err "fail"))).error = some "fail" := by
  have h := completion_transitions_results_and_arms_cooldown
    (run [Action.capture 1, Action.dispatch 0]) 100 5 7 "fail" (by decide)
  exact ⟨h.2.2.2.1, h.2.2.2.2.1, h.2.2.2.2.2.1⟩

/-- C7: while the controller is in `cooldown`, `startScan` and both submit
handlers are rejected with no state change (queue retained, no run
started); once the persisted window has expired, the next timer firing
moves the controller to `idle` and clears the persisted window, and the
dispatch effect then starts analysis of the head of the retained queue if
it is non-empty, leaving the controller in `idle` otherwise. -/
theorem cooldown_gating
    (s : Scanner) (now i : Nat) (l : List Nat)
    (hc : s.state = SState.cooldown) (hp : s.isProcessing = false)
    (hexp : s.storage.getD 0 ≤ now) :
    step s (Action.capture i) = s ∧
    step s (Action.multiple l) = s ∧
    step s Action.startScan = s ∧
    (step s (Action.tick now)).state = SState.idle ∧
    (step s (Action.tick now)).storage = none ∧
    (step (step s (Action.tick now)) (Action.dispatch now)).state
      = (if s.imageQueue = [] then SState.idle else SState.analyzing) ∧
    (step (step s (Action.tick now)) (Action.dispatch now)).imageQueue
      = s.imageQueue.tail ∧
    (step (step s (Action.tick now)) (Action.dispatch now)).inFlight
      = (if s.imageQueue = [] then s.inFlight else s.inFlight + 1) := by
  have htick : step s (Action.tick now)
      = { s with cooldownTime := 0, storage := none, state := SState.idle } := by
    show cooldownTick now s
        = { s with cooldownTime := 0, storage := none, state := SState.idle }
    unfold cooldownTick
    rw [if_pos hc, if_neg (by omega)]
  have hde : s.imageQueue = [] →
      step (step s (Action.tick now)) (Action.dispatch now)
        = { s with cooldownTime := 0, storage := none, state := SState.idle } := by
    intro hqe
    rw [htick]
    show idleDispatch now _ = _
    unfold idleDispatch
    rw [if_neg (by simp [hqe])]
  have hdc : s.imageQueue ≠ [] →
      step (step s (Action.tick now)) (Action.dispatch now)
        = { s with cooldownTime := 0, storage := none, analysisResult := none,
                   error := none, state := SState.analyzing, isProcessing := true,
                   imageQueue := s.imageQueue.tail, inFlight := s.inFlight + 1 } := by
    intro hqe
    rw [htick]
    show idleDispatch now _ = _
    unfold idleDispatch processQueue
    rw [if_pos ⟨rfl, by simpa using hqe⟩,
      if_neg (by simp [hp, hqe]), if_neg (by simp)]
  refine ⟨?_, ?_, ?_, by rw [htick], by rw [htick], ?_, ?_, ?_⟩
  · show handleImageCapture i s = s
    unfold handleImageCapture
    rw [if_pos (Or.inl hc)]
  · show handleMultipleImages l s = s
    unfold handleMultipleImages
    rw [if_pos (Or.inl hc)]
  · show startScan s = s
    unfold startScan
    rw [if_pos (Or.inr hc)]
  · by_cases hqe : s.imageQueue = []
    · rw [hde hqe, if_pos hqe]
    · rw [hdc hqe, if_neg hqe]
  · by_cases hqe : s.imageQueue = []
    · rw [hde hqe, hqe]
      rfl
    · rw [hdc hqe]
  · by_cases hqe : s.imageQueue = []
    · rw [hde hqe, if_pos hqe]
    · rw [hdc hqe, if_neg hqe]

theorem cooldown_gating_witness :
    (run [Action.multiple [1, 2], Action.dispatch 0,
        Action.complete 100 (.ok 7), Action.resultsTimer]).state
      = SState.cooldown ∧
    (run [Action.multiple [1, 2], Action.dispatch 0,
        Action.complete 100 (.ok 7), Action.resultsTimer]).imageQueue = [2] ∧
    (step (run [Action.multiple [1, 2], Action.dispatch 0,
        Action.complete 100 (.ok 7), Action.resultsTimer])
        (Action.capture 9)
      = run [Action.multiple [1, 2], Action.dispatch 0,
          Action.complete 100 (.ok 7), Action.resultsTimer]) ∧
    (step (step (run [Action.multiple [1, 2], Action.dispatch 0,
        Action.complete 100 (.ok 7), Action.resultsTimer])
        (Action.tick 20000)) (Action.dispatch 20000)).state
      = SState.analyzing := by
  have h := cooldown_gating
    (run [Action.multiple [1, 2], Action.dispatch 0,
      Action.complete 100 (.ok 7), Action.resultsTimer])
    20000 9 [8] (by decide) (by decide) (by decide)
  refine ⟨by decide, by decide, h.1, ?_⟩
  rw [h.2.2.2.2.2.1]
  decide

/-- C8: Agent A (extraction) is always the first invoked stage; the
research and inspection stages appear in the trace exactly when
extraction succeeded — so an extraction failure means zero calls to their
adapters — and the synthesis stage appears exactly when extraction,
research and inspection all succeeded, in which case the trace is
precisely extract, research, inspect, synthesize in that order. -/
theorem stage_ordering_fail_fast (now : Nat) (env : FlowEnv) :
    ((multiAgentAnalysisFlow now env).2.head? = some Stage.extract) ∧
    ((Stage.research ∈ (multiAgentAnalysisFlow now env).2) ↔
      isOkE env.agentA = true) ∧
    ((Stage.inspect ∈ (multiAgentAnalysisFlow now env).2) ↔
      isOkE env.agentA = true) ∧
    ((Stage.synthesize ∈ (multiAgentAnalysisFlow now env).2) ↔
      (isOkE env.agentA && isOkE env.agentB && isOkE env.agentC) = true) ∧
    ((multiAgentAnalysisFlow now env).2
        = [Stage.extract, Stage.research, Stage.inspect, Stage.synthesize] ↔
      Stage.synthesize ∈ (multiAgentAnalysisFlow now env).2) := by
  obtain ⟨a, b, c, g⟩ := env
  cases a <;> cases b <;> cases c <;> cases g <;>
    simp [multiAgentAnalysisFlow, isOkE]

/-- C9 (counterexample): `restart` is not a no-op while an orchestrator
run is executing: from the reachable state with one run in flight
(`analyzing`, lock held), `restart` changes the state — it resets the
controller and releases the lock without cancelling the run. -/
theorem restart_during_run_not_noop :
    (run [Action.capture 1, Action.dispatch 0]).inFlight = 1 ∧
    (run [Action.capture 1, Action.dispatch 0]).state = SState.analyzing ∧
    step (run [Action.capture 1, Action.dispatch 0]) Action.restart
      ≠ run [Action.capture 1, Action.dispatch 0] := by decide

/-- C9 (amended): `restart` is accepted unconditionally from every
controller state, including while a run is executing (the in-flight run
is not cancelled: `inFlight` is unchanged); its postcondition always
holds — state `idle`, empty queue, lock released, persisted cooldown
window cleared, result, error and countdown reset. -/
theorem restart_unconditional_reset (s : Scanner) :
    (step s Action.restart).state = SState.idle ∧
    (step s Action.restart).imageQueue = [] ∧
    (step s Action.restart).isProcessing = false ∧
    (step s Action.restart).storage = none ∧
    (step s Action.restart).analysisResult = none ∧
    (step s Action.restart).error = none ∧
    (step s Action.restart).cooldownTime = 0 ∧
    (step s Action.restart).inFlight = s.inFlight :=
  ⟨rfl, rfl, rfl, rfl, rfl, rfl, rfl, rfl⟩

/-- C10: an accepted submission replaces the pending queue rather than
appending to it — `handleImageCapture` sets the queue to exactly the one
new image and `handleMultipleImages` sets it to exactly the submitted
list, discarding whatever was queued before. -/
theorem submit_replaces_queue
    (s : Scanner) (img : Nat) (imgs : List Nat)
    (hc : s.state ≠ SState.cooldown) (hp : s.isProcessing = false)
    (hne : imgs ≠ []) :
    (step s (Action.capture img)).imageQueue = [img] ∧
    (step s (Action.multiple imgs)).imageQueue = imgs := by
  constructor
  · show (handleImageCapture img s).imageQueue = [img]
    unfold handleImageCapture
    rw [if_neg (by simp [hc, hp])]
  · show (handleMultipleImages imgs s).imageQueue = imgs
    unfold handleMultipleImages
    rw [if_neg (by simp [hc, hp, hne])]

theorem submit_replaces_queue_witness :
    (run [Action.multiple [5, 6]]).imageQueue = [5, 6] ∧
    (step (run [Action.multiple [5, 6]]) (Action.capture 7)).imageQueue = [7] ∧
    (step (run [Action.multiple [5, 6]]) (Action.multiple [8, 9])).imageQueue
      = [8, 9] := by
  have h := submit_replaces_queue (run [Action.multiple [5, 6]]) 7 [8, 9]
    (by decide) (by decide) (by decide)
  exact ⟨by decide, h.1, h.2⟩

end MediLens
